import Mathlib

/-!
Verification of the telemetry validation harness
(test-telemetry-validation.py).

This file gives a shallow embedding of the parts of the script that the
specification talks about, and proves theorems about them:

- the JSON-RPC message dispatcher of ACPConnection (lines 72 to 87),
- the auto-answering of server-initiated requests (lines 89 to 110),
- the request-response bookkeeping of send_request (lines 118 to 139),
- the byte-at-a-time stdout reader loop (lines 53 to 70),
- the control flow of main and run_tests around setup errors, assertion
  failures and exit codes (lines 197 to 315),
- the scenario 3 compaction heuristic (lines 382 to 389 and 499 to 540),
- the scenario 4 ground-truth comparison (lines 414 to 425),
- the environment preparation for the spawned subprocess (lines 212 to 225).

Python ints are modelled as Int (token counters coming from JSON), the
float divisions of the heuristics are modelled exactly over the rationals,
dicts keyed by request id are modelled as functions into Option, and
Python exceptions as an Except monad with an explicit error type.
-/

set_option autoImplicit false

/-- One entry of the options list carried by a requestPermission server
request: a JSON object whose kind and optionId fields may each be absent
(Python dict.get returning None). -/
structure PermOption where
  kind : Option String
  optionId : Option String
deriving DecidableEq

/-- An incoming JSON object, modelling exactly the fields the harness
inspects: the presence and value of id, the presence and value of method,
the options list reached via msg.get("params", set).get("options", list)
(empty when params or options is absent), and the presence of an error
field (used by run_tests on responses). -/
structure JsonMsg where
  id : Option Int := none
  method : Option String := none
  options : List PermOption := []
  errorField : Option String := none
deriving DecidableEq

/-- The result payload of a response the harness itself sends back to a
server-initiated request (lines 97 to 110): either the selected
permission outcome, or the empty result object. -/
inductive RespResult where
  | permissionSelected (optionId : String)
  | emptyObj
deriving DecidableEq

/-- A response message sent back by the harness to a server-initiated
request; it carries the id copied from the request. -/
structure OutMsg where
  id : Int
  result : RespResult
deriving DecidableEq

/-- The Python exceptions the embedded code can raise. -/
inductive PyErr where
  | timeoutError (method : String)
  | keyError
  | indexError
  | assertionError (msg : String)
deriving DecidableEq

/-- The mutable state of ACPConnection (lines 34 to 45): the request-id
counter, the pending map (an entry some b means an Event is registered
for that id, with b recording whether the event has been set), the
results map, the notification list, and the raw messages written to the
subprocess stdin (split into requests sent by send_request and responses
sent by the server-request handler). -/
structure ConnState where
  request_id : Int := 0
  pending : Int → Option Bool := fun _ => none
  results : Int → Option JsonMsg := fun _ => none
  notifications : List JsonMsg := []
  sentRequests : List (Int × String) := []
  sentResponses : List OutMsg := []

/-- ACPConnection._handle_server_request (lines 89 to 110).  For a
requestPermission request it looks for the first option whose kind is
allow_once; if one exists its optionId is used (a missing optionId key
raises KeyError), otherwise the first option of the list is used with
optionId defaulting to the empty string (an empty list raises
IndexError).  Any other method is answered with an empty result object.
The response always carries the id of the request. -/
def handle_server_request (msg : JsonMsg) : Except PyErr OutMsg :=
  match msg.method, msg.id with
  | some m, some rid =>
    if m = "requestPermission" then
      match msg.options.find? (fun o => o.kind == some "allow_once") with
      | some ao =>
        match ao.optionId with
        | some oid => .ok ⟨rid, .permissionSelected oid⟩
        | none => .error .keyError
      | none =>
        match msg.options with
        | [] => .error .indexError
        | o :: _ => .ok ⟨rid, .permissionSelected (o.optionId.getD "")⟩
    else
      .ok ⟨rid, .emptyObj⟩
  | _, _ => .error .keyError

/-- ACPConnection._dispatch (lines 72 to 87).  A message with an id and
no method is recorded in the results map and, when a waiter is pending
for that id, its event is set; a message with both id and method goes to
the server-request handler, whose response is written out; a message
with a method and no id is appended to the notification list; a message
with neither field is dropped. -/
def dispatch (st : ConnState) (msg : JsonMsg) : Except PyErr ConnState :=
  match msg.id, msg.method with
  | some rid, none =>
    .ok { st with
      results := fun k => if k = rid then some msg else st.results k
      pending := fun k =>
        if k = rid then (st.pending k).map (fun _ => true) else st.pending k }
  | some _, some _ =>
    (handle_server_request msg).map
      (fun r => { st with sentResponses := st.sentResponses ++ [r] })
  | none, some _ =>
    .ok { st with notifications := st.notifications ++ [msg] }
  | none, none => .ok st

/-- ACPConnection.send_request (lines 118 to 139).  The request-id
counter is bumped, an event is registered under the new id, the request
is written out, and the caller waits for the event.  The reader thread
runs concurrently; the message (if any) that it dispatches during the
wait is modelled by the arrival parameter.  If the event was set the
response is popped from the results map and the pending entry deleted;
otherwise a TimeoutError is raised. -/
def send_request (st : ConnState) (method : String) (arrival : Option JsonMsg) :
    Except PyErr JsonMsg × ConnState :=
  let rid := st.request_id + 1
  let st1 : ConnState := { st with
    request_id := rid
    pending := fun k => if k = rid then some false else st.pending k
    sentRequests := st.sentRequests ++ [(rid, method)] }
  let st2 : ConnState :=
    match arrival with
    | some m =>
      match dispatch st1 m with
      | .ok s => s
      | .error _ => st1
    | none => st1
  if st2.pending rid = some true then
    match st2.results rid with
    | some resp =>
      (.ok resp, { st2 with
        pending := fun k => if k = rid then none else st2.pending k
        results := fun k => if k = rid then none else st2.results k })
    | none => (.error .keyError, st2)
  else
    (.error (.timeoutError method), st2)

/-- The fields of the TurnResult dataclass (lines 173 to 192) that the
scenario logic inspects.  Token counters come from JSON and are modelled
as Int. -/
structure TurnResult where
  response_input_tokens : Int := 0
  response_output_tokens : Int := 0
  response_total_tokens : Int := 0
  final_used : Int := 0
deriving DecidableEq

/-- The four assert statements of scenario 1 (lines 301 to 304), in
source order, each with the message of its AssertionError. -/
def scenario1Asserts : List ((TurnResult → Bool) × (TurnResult → String)) :=
  [ (fun t => decide (0 < t.response_input_tokens),
      fun _ => "input_tokens should be > 0"),
    (fun t => decide (0 < t.response_output_tokens),
      fun _ => "output_tokens should be > 0"),
    (fun t => decide (0 < t.response_total_tokens),
      fun _ => "total_tokens should be > 0"),
    (fun t => decide (t.response_total_tokens < 1000000),
      fun t => "total_tokens suspiciously high: " ++
        toString t.response_total_tokens) ]

/-- Sequential execution of a list of assert statements: the first
failing condition raises its message, otherwise control falls through. -/
def runAsserts (t : TurnResult) :
    List ((TurnResult → Bool) × (TurnResult → String)) → Except String Unit
  | [] => .ok ()
  | (cond, msg) :: rest => if cond t then runAsserts t rest else .error (msg t)

/-- The assert block of scenario 1 applied to turn 1 (lines 301 to 304). -/
def test1Asserts (t : TurnResult) : Except String Unit :=
  runAsserts t scenario1Asserts

/-- Which of the two branches a heuristic prints. -/
inductive PassOrWarn where
  | pass
  | warn
deriving DecidableEq

/-- The scenario 3 compaction heuristic (lines 382 to 389): the ratio
turn-5 final_used over max(turn-1 final_used, 1) is computed (modelled
exactly over the rationals) and the PASS line is printed when it is
below 2, the cumulative-counting warning otherwise. -/
def test3Branch (t1_used t5_used : Int) : PassOrWarn :=
  if ((t5_used : ℚ) / ((max t1_used 1 : Int) : ℚ)) < 2 then .pass else .warn

/-- The ANALYSIS block (lines 499 to 540) recomputes the same ratio from
turns[0] and turns[4] and prints the per-call-context conclusion when it
is below 2, the cumulative warning otherwise. -/
def analysisBranch (turn1_used turn5_used : Int) : PassOrWarn :=
  if ((turn5_used : ℚ) / ((max turn1_used 1 : Int) : ℚ)) < 2 then .pass
  else .warn

/-- Outcome of the scenario 4 ground-truth comparison. -/
inductive T4Verdict where
  | pass
  | fail
  | info
deriving DecidableEq

/-- The comparison step of scenario 4 (lines 416 to 423): diff is the
absolute difference between the reported final_used and the parsed
count, pct is diff over max(parsed, 1) times 100 (modelled exactly over
the rationals), and PASS is printed when pct is below 20, FAIL
otherwise. -/
def test4Compare (final_used : Int) (context_tokens : ℕ) : T4Verdict :=
  let diff : ℕ := (final_used - (context_tokens : Int)).natAbs
  let pct : ℚ := ((diff : ℚ) / ((max context_tokens 1 : ℕ) : ℚ)) * 100
  if pct < 20 then .pass else .fail

/-- Scenario 4 (lines 414 to 425): when parse_context_usage returned a
number the comparison runs, otherwise only the INFO line is printed.
The regex parser itself consumes external agent text; its result
(a non-negative int or None) is the input here. -/
def test4Verdict (final_used : Int) (parsed : Option ℕ) : T4Verdict :=
  match parsed with
  | some ct => test4Compare final_used ct
  | none => .info

/-- Outcome of running run_tests: normal return, a sys.exit call
(SystemExit, which is not caught by the except-Exception handler of
main), or an uncaught exception (which is). -/
inductive RunOutcome where
  | normal
  | sysExit (code : ℕ)
  | exn (e : PyErr)
deriving DecidableEq

/-- The external inputs that decide the control flow of run_tests: the
three setup responses (only their error field is branched on), the data
of turn 1, and the outcome of the remaining scenarios (scenarios 2 to 5
neither raise nor exit on their own, but the send_request calls inside
them may time out). -/
structure RunInputs where
  initResp : JsonMsg
  sessionResp : JsonMsg
  modeResp : JsonMsg
  t1 : TurnResult
  rest : RunOutcome

/-- The control flow of run_tests (lines 241 to 315 and onwards): an
error field in the initialize response exits with code 1 (line 252), an
error field in the session/new response exits with code 1 (line 269), an
error field in the session/set_mode response only prints a warning
(line 280) and the run continues; then the scenario 1 asserts run, and a
failing one raises AssertionError.  The second component records the
printed error or warning markers. -/
def run_tests (i : RunInputs) : RunOutcome × List String :=
  match i.initResp.errorField with
  | some e => (.sysExit 1, ["ERROR: " ++ e])
  | none =>
    match i.sessionResp.errorField with
    | some e => (.sysExit 1, ["ERROR: " ++ e])
    | none =>
      let modeLog :=
        match i.modeResp.errorField with
        | some e => ["WARNING: set_mode failed: " ++ e]
        | none => ["OK"]
      match test1Asserts i.t1 with
      | .error m => (.exn (.assertionError m), modeLog)
      | .ok _ => (i.rest, modeLog)

/-- The exit behaviour of main (lines 197 to 238): when the dist
artifact is missing, main prints and calls sys.exit(1) before spawning
anything; otherwise run_tests runs inside try-except-finally, where
except Exception catches any exception (printing FATAL ERROR and a
traceback) and the finally block terminates the subprocess, so an
exception leads to exit code 0 while a SystemExit raised by sys.exit
passes through the except-Exception clause and keeps its code.  The
result is the pair of the process exit code and whether
proc.terminate() was called. -/
def mainModel (distExists : Bool) (rt : RunOutcome) : ℕ × Bool :=
  if distExists then
    match rt with
    | .sysExit c => (c, true)
    | .normal => (0, true)
    | .exn _ => (0, true)
  else
    (1, false)

/-- The subprocess environment (lines 214 to 215): a copy of the parent
environment with the CLAUDECODE entry popped (env.pop with a default,
so an absent key is not an error). -/
def spawnEnv (environ : String → Option String) : String → Option String :=
  fun k => if k = "CLAUDECODE" then none else environ k

/-- The six byte values stripped by Python bytes.strip(): tab, newline,
vertical tab, form feed, carriage return, space. -/
def pyWs (b : ℕ) : Bool :=
  b = 9 || b = 10 || b = 11 || b = 12 || b = 13 || b = 32

/-- Python bytes.strip(): whitespace removed from both ends. -/
def stripBytes (l : List ℕ) : List ℕ :=
  ((l.dropWhile pyWs).reverse.dropWhile pyWs).reverse

/-- The three relevant outcomes of json.loads on the raw bytes of a
line (line 67): a decoded object; a json.JSONDecodeError, which the
except clause of line 68 catches; or a UnicodeDecodeError, raised when
the bytes are not valid UTF-8, which that except clause does not catch
(UnicodeDecodeError is a sibling of json.JSONDecodeError under
ValueError, not a subclass of it). -/
inductive DecodeResult where
  | ok (msg : JsonMsg)
  | jsonError
  | unicodeError
deriving DecidableEq

/-- How the reader thread ends: the stream reached end of input and the
loop broke normally, or an uncaught exception propagated out of the
loop and killed the thread. -/
inductive ReaderExit where
  | eof
  | uncaught
deriving DecidableEq

/-- ACPConnection._read_loop (lines 53 to 70), parameterised by the
behaviour of json.loads on each line.  Bytes are read one at a time
into a buffer; at each newline the buffer is stripped, an empty line is
skipped, a line on which json.loads raises json.JSONDecodeError is
skipped (the except clause of line 68), a decoded object is dispatched,
and a line on which json.loads raises UnicodeDecodeError kills the
loop: that exception is not caught, no further bytes are processed and
the reader thread dies.  At end of input the loop breaks, discarding
the unfinished buffer.  The result is the sequence of messages passed
to _dispatch together with how the thread ended. -/
def read_loop (decode : List ℕ → DecodeResult) :
    List ℕ → List ℕ → List JsonMsg × ReaderExit
  | _, [] => ([], .eof)
  | buffer, b :: rest =>
    let buffer1 := buffer ++ [b]
    if b = 10 then
      let line := stripBytes buffer1
      if line = [] then read_loop decode [] rest
      else
        match decode line with
        | .ok msg =>
          let p := read_loop decode [] rest
          (msg :: p.1, p.2)
        | .jsonError => read_loop decode [] rest
        | .unicodeError => ([], .uncaught)
    else
      read_loop decode buffer1 rest

/-- Specification-side view of a byte stream: the list of
newline-terminated lines (without their terminators) followed by the
trailing unfinished buffer. -/
def splitStream : List ℕ → List (List ℕ) × List ℕ
  | [] => ([], [])
  | b :: rest =>
    let p := splitStream rest
    if b = 10 then ([] :: p.1, p.2)
    else
      match p.1 with
      | [] => ([], b :: p.2)
      | l :: ls => ((b :: l) :: ls, p.2)

/-- Specification-side processing of the complete lines of the stream
(each line given without its terminating newline byte): lines that are
empty after stripping and json.JSONDecodeError lines are skipped,
decoded objects are emitted in order, and the first UnicodeDecodeError
line stops processing, the remaining lines never being looked at. -/
def emitLines (decode : List ℕ → DecodeResult) :
    List (List ℕ) → List JsonMsg × ReaderExit
  | [] => ([], .eof)
  | l :: ls =>
    let s := stripBytes (l ++ [10])
    if s = [] then emitLines decode ls
    else
      match decode s with
      | .ok msg =>
        let p := emitLines decode ls
        (msg :: p.1, p.2)
      | .jsonError => emitLines decode ls
      | .unicodeError => ([], .uncaught)

/-- Prepending pending buffer content to the first complete line. -/
def consFirst (buf : List ℕ) : List (List ℕ) → List (List ℕ)
  | [] => []
  | l :: ls => (buf ++ l) :: ls

/-! Concrete fixtures used by witnesses and counterexamples. -/

/-- Inputs with error-free setup and an all-zero turn 1. -/
def zeroRunInputs : RunInputs :=
  { initResp := {}, sessionResp := {}, modeResp := {}, t1 := {},
    rest := .normal }

/-- A fresh connection state. -/
def freshConn : ConnState := {}

/-- A response message with id 5. -/
def respMsg5 : JsonMsg := { id := some 5 }

/-- A notification message. -/
def notifMsg : JsonMsg := { method := some "session/update" }

/-- A message with neither id nor method. -/
def emptyMsg : JsonMsg := {}

/-- A server-initiated request with an unknown method. -/
def pingMsg : JsonMsg := { id := some 9, method := some "ping" }

/-- A requestPermission server request whose first option is not
allow_once while its second one is. -/
def permMsg : JsonMsg :=
  { id := some 7, method := some "requestPermission",
    options := [ { kind := some "reject", optionId := some "r" },
                 { kind := some "allow_once", optionId := some "a" } ] }

/-- A matching response for the first request on a fresh connection. -/
def arrivalMsg : JsonMsg := { id := some 1, errorField := none }

/-- A small concrete parent environment. -/
def sampleEnviron : String → Option String :=
  fun k => if k = "PATH" then some "/usr/bin" else none

/-- A concrete message produced by the sample decoder. -/
def decodedMsg : JsonMsg := { id := some 42 }

/-- A sample json.loads behaviour: the byte 65 decodes, the byte 255 is
invalid UTF-8 and raises UnicodeDecodeError, any other line raises
json.JSONDecodeError. -/
def sampleDecode : List ℕ → DecodeResult :=
  fun s =>
    if s = [65] then .ok decodedMsg
    else if s = [255] then .unicodeError
    else .jsonError

/-- A byte stream whose first line is the invalid UTF-8 byte 255,
followed by a line that decodes on its own. -/
def crashStream : List ℕ := [255, 10, 65, 10]

/-- A byte stream with a decodable line, an empty line, a blank line, a
json.JSONDecodeError line, an invalid UTF-8 line, a decodable line
after it, and an unfinished trailing byte. -/
def mixedStream : List ℕ :=
  [65, 10, 10, 32, 10, 66, 10, 255, 10, 65, 10, 67]

/-- Inputs whose initialize response carries an error field. -/
def errInitInputs : RunInputs :=
  { initResp := { errorField := some "boom" }, sessionResp := {},
    modeResp := {}, t1 := {}, rest := .normal }

/-- Inputs whose session/new response carries an error field. -/
def errSessionInputs : RunInputs :=
  { initResp := {}, sessionResp := { errorField := some "boom" },
    modeResp := {}, t1 := {}, rest := .normal }

/-- Inputs whose session/set_mode response carries an error field. -/
def errModeInputs : RunInputs :=
  { initResp := {}, sessionResp := {},
    modeResp := { errorField := some "boom" }, t1 := {}, rest := .normal }

/-! Helper lemmas. -/

theorem consFirst_nil (ls : List (List ℕ)) : consFirst [] ls = ls := by
  cases ls <;> simp [consFirst]

theorem read_loop_eq (decode : List ℕ → DecodeResult) :
    ∀ (input buf : List ℕ),
      read_loop decode buf input =
        emitLines decode (consFirst buf (splitStream input).1) := by
  intro input
  induction input with
  | nil => intro buf; simp [read_loop, splitStream, consFirst, emitLines]
  | cons b rest ih =>
    intro buf
    by_cases hb : b = 10
    · subst hb
      simp only [read_loop, if_pos rfl, splitStream, ih, consFirst_nil]
      simp [consFirst, emitLines]
    · simp only [read_loop, if_neg hb, splitStream, ih]
      rcases h : (splitStream rest).1 with _ | ⟨l, ls⟩
      · simp [h, if_neg hb, consFirst]
      · simp [h, if_neg hb, consFirst]

/-- Claim C1 (counterexample): the claim states that the PASS branch of
the scenario 3 heuristic is taken exactly when turn-5 final_used is
below 2 times turn-1 final_used, including when turn-1 final_used is 0.
At final_used values 0 and 0 the code divides by max(0, 1) = 1 and
prints PASS, while 0 < 2 * 0 is false. -/
theorem test3_zero_counterexample :
    ¬(test3Branch 0 0 = .pass ↔ (0 : ℚ) < 2 * (0 : ℚ)) := by
  have hmax : (max (0 : Int) 1) = 1 := by decide
  have h : test3Branch 0 0 = .pass := by
    unfold test3Branch
    rw [hmax]
    norm_num
  simp [h]

/-- Claim C1 (amended): the scenario 3 heuristic prints the PASS line
exactly when turn-5 final_used is below 2 times max(turn-1 final_used, 1),
and the ANALYSIS block takes its branch by the same comparison. -/
theorem test3_branch_amended : ∀ t1_used t5_used : Int,
    (test3Branch t1_used t5_used = .pass ↔
      (t5_used : ℚ) < 2 * ((max t1_used 1 : Int) : ℚ)) ∧
    analysisBranch t1_used t5_used = test3Branch t1_used t5_used := by
  intro t1 t5
  have hm : (0 : ℚ) < ((max t1 1 : Int) : ℚ) := by
    have h1 : (0 : Int) < max t1 1 :=
      lt_of_lt_of_le Int.one_pos (le_max_right t1 1)
    exact_mod_cast h1
  have key : ((t5 : ℚ) / ((max t1 1 : Int) : ℚ) < 2) ↔
      (t5 : ℚ) < 2 * ((max t1 1 : Int) : ℚ) := div_lt_iff₀ hm
  constructor
  · unfold test3Branch
    split_ifs with h
    · exact iff_of_true rfl (key.mp h)
    · exact iff_of_false (by simp) (fun hc => h (key.mpr hc))
  · rfl

/-- Claim C2 (counterexample): the claim states that whenever a count
was parsed, PASS is printed exactly when the relative divergence, the
absolute difference divided by the parsed count, is under 20 percent.
At final_used 1 and parsed count 0 (the agent text 0/1 tokens parses to
0) the code divides by max(0, 1) = 1, giving 100 percent, and prints
FAIL, while the formula of the claim divides by the parsed count 0
itself (division by zero, which the rationals evaluate to 0) and is
under 20 percent. -/
theorem test4_zero_counterexample :
    ¬(test4Verdict 1 (some 0) = .pass ↔
      |(1 : ℚ) - (0 : ℚ)| / (0 : ℚ) < 1 / 5) := by
  have hmax : (max (0 : ℕ) 1) = 1 := by decide
  have habs : ((1 : Int) - ((0 : ℕ) : Int)).natAbs = 1 := by decide
  have h : test4Verdict 1 (some 0) = .fail := by
    simp only [test4Verdict, test4Compare]
    rw [hmax, habs]
    norm_num
  rw [h]
  simp

/-- Claim C2 (amended): scenario 4 prints PASS exactly when the absolute
difference between final_used and the parsed count, divided by
max(parsed, 1), is under 20 percent; it prints FAIL exactly otherwise;
and when no count was parsed only the INFO line is printed. -/
theorem test4_verdict_amended : ∀ (u : Int) (p : ℕ),
    (test4Verdict u (some p) = .pass ↔
      |(u : ℚ) - (p : ℚ)| / max (p : ℚ) 1 < 1 / 5) ∧
    (test4Verdict u (some p) = .fail ↔
      ¬(|(u : ℚ) - (p : ℚ)| / max (p : ℚ) 1 < 1 / 5)) ∧
    test4Verdict u none = .info := by
  intro u p
  have habs : (((u - (p : Int)).natAbs : ℚ)) = |(u : ℚ) - (p : ℚ)| := by
    rw [Int.cast_natAbs]
    push_cast
    ring_nf
  have hmax : (((max p 1 : ℕ) : ℚ)) = max (p : ℚ) 1 := by
    push_cast
    ring_nf
  have key : ((((u - (p : Int)).natAbs : ℚ) / ((max p 1 : ℕ) : ℚ)) * 100 < 20)
      ↔ (|(u : ℚ) - (p : ℚ)| / max (p : ℚ) 1 < 1 / 5) := by
    rw [habs, hmax]
    constructor <;> intro h <;> linarith
  have hred : test4Verdict u (some p) =
      (if ((((u - (p : Int)).natAbs : ℚ) / ((max p 1 : ℕ) : ℚ)) * 100 < 20)
        then T4Verdict.pass else T4Verdict.fail) := rfl
  refine ⟨?_, ?_, rfl⟩
  · rw [hred]
    split_ifs with h
    · exact iff_of_true rfl (key.mp h)
    · exact iff_of_false (by simp) (fun hc => h (key.mpr hc))
  · rw [hred]
    split_ifs with h
    · exact iff_of_false (by simp) (fun hnc => hnc (key.mp h))
    · exact iff_of_true rfl (fun hc => h (key.mpr hc))

/-- Claim C6: the scenario 1 sanity block on turn 1 raises no assertion
exactly when the response input tokens are strictly positive, the output
tokens are strictly positive, and the total token count lies strictly
between 0 and 1000000. -/
theorem test1_sanity_iff : ∀ t : TurnResult,
    test1Asserts t = .ok () ↔
      0 < t.response_input_tokens ∧ 0 < t.response_output_tokens ∧
      0 < t.response_total_tokens ∧ t.response_total_tokens < 1000000 := by
  intro t
  simp only [test1Asserts, scenario1Asserts, runAsserts]
  split_ifs with h1 h2 h3 h4 <;> simp_all

/-- Claim C3 (counterexample): the claim states that a failed scenario 1
assert terminates the run with a non-zero exit status and that there are
three such assert calls.  With error-free setup and an all-zero turn 1,
the first assert raises AssertionError, main catches it in its
except-Exception handler, and the process exit code is 0; moreover
scenario 1 contains four assert statements, not three. -/
theorem scenario1_assert_exit_counterexample :
    (run_tests zeroRunInputs).1 =
      .exn (.assertionError "input_tokens should be > 0") ∧
    mainModel true (run_tests zeroRunInputs).1 = (0, true) ∧
    scenario1Asserts.length ≠ 3 := by
  refine ⟨rfl, rfl, by decide⟩

/-- Claim C3 (amended): scenario 1 contains four assert statements; when
one of them fails (with error-free setup), run_tests raises
AssertionError, which aborts the remaining scenarios but is caught by
the except-Exception handler of main, and the process exits with code 0
(the subprocess still being terminated by the finally block); no
uncaught exception ever produces a non-zero exit code, only the
sys.exit(1) setup paths do. -/
theorem scenario1_assert_flow_amended :
    ∀ (i : RunInputs) (m : String) (e : PyErr),
      i.initResp.errorField = none →
      i.sessionResp.errorField = none →
      test1Asserts i.t1 = .error m →
      (run_tests i).1 = .exn (.assertionError m) ∧
      mainModel true (.exn (.assertionError m)) = (0, true) ∧
      mainModel true (.exn e) = (0, true) ∧
      scenario1Asserts.length = 4 := by
  intro i m e h1 h2 h3
  refine ⟨?_, rfl, rfl, by decide⟩
  unfold run_tests
  rw [h1, h2, h3]

/-- Witness for the amended claim C3 at a concrete input. -/
theorem scenario1_assert_flow_amended_witness :
    (run_tests zeroRunInputs).1 =
      .exn (.assertionError "input_tokens should be > 0") ∧
    mainModel true (.exn .keyError) = (0, true) := by
  have h := scenario1_assert_flow_amended zeroRunInputs
    "input_tokens should be > 0" .keyError rfl rfl rfl
  exact ⟨h.1, h.2.2.1⟩

/-- Claim C4: the dispatcher classifies every incoming JSON object into
exactly one of the disjoint cases: with an id and no method the object
is stored in the results map under its id and a pending waiter for that
id (if any) is signaled, everything else unchanged; with both id and
method it is handled as a server-initiated request, whose answer is
written out; with a method and no id it is appended to the notification
list; with neither field it is dropped. -/
theorem dispatch_classification : ∀ (st : ConnState) (msg : JsonMsg),
    (∀ rid, msg.id = some rid → msg.method = none →
      dispatch st msg = .ok { st with
        results := fun k => if k = rid then some msg else st.results k
        pending := fun k =>
          if k = rid then (st.pending k).map (fun _ => true)
          else st.pending k }) ∧
    (msg.id.isSome = true → msg.method.isSome = true →
      dispatch st msg = (handle_server_request msg).map
        (fun r => { st with sentResponses := st.sentResponses ++ [r] })) ∧
    (msg.id = none → msg.method.isSome = true →
      dispatch st msg =
        .ok { st with notifications := st.notifications ++ [msg] }) ∧
    (msg.id = none → msg.method = none → dispatch st msg = .ok st) := by
  intro st msg
  refine ⟨?_, ?_, ?_, ?_⟩
  · intro rid h1 h2
    unfold dispatch
    rw [h1, h2]
  · intro h1 h2
    rcases ha : msg.id with _ | rid
    · rw [ha] at h1; cases h1
    · rcases hb : msg.method with _ | m
      · rw [hb] at h2; cases h2
      · unfold dispatch
        rw [ha, hb]
  · intro h1 h2
    rcases hb : msg.method with _ | m
    · rw [hb] at h2; cases h2
    · unfold dispatch
      rw [h1, hb]
  · intro h1 h2
    unfold dispatch
    rw [h1, h2]

/-- Witness for claim C4: the four cases at concrete messages on a fresh
connection. -/
theorem dispatch_classification_witness :
    dispatch freshConn respMsg5 = .ok { freshConn with
      results := fun k => if k = 5 then some respMsg5 else freshConn.results k
      pending := fun k =>
        if k = 5 then (freshConn.pending k).map (fun _ => true)
        else freshConn.pending k } ∧
    dispatch freshConn pingMsg = (handle_server_request pingMsg).map
      (fun r => { freshConn with
        sentResponses := freshConn.sentResponses ++ [r] }) ∧
    dispatch freshConn notifMsg =
      .ok { freshConn with
        notifications := freshConn.notifications ++ [notifMsg] } ∧
    dispatch freshConn emptyMsg = .ok freshConn := by
  refine ⟨(dispatch_classification freshConn respMsg5).1 5 rfl rfl,
    (dispatch_classification freshConn pingMsg).2.1 rfl rfl,
    (dispatch_classification freshConn notifMsg).2.2.1 rfl rfl,
    (dispatch_classification freshConn emptyMsg).2.2.2 rfl rfl⟩

/-- Claim C5 (counterexample): the claim states that a requestPermission
request is answered by selecting the first permission option of its
options list.  For the concrete request whose options are a reject
option with optionId r followed by an allow_once option with optionId a,
the handler answers with optionId a, not with the optionId r of the
first option. -/
theorem requestPermission_first_option_counterexample :
    handle_server_request permMsg =
      .ok { id := 7, result := .permissionSelected "a" } ∧
    (permMsg.options.head?.bind (fun o => o.optionId)) = some "r" ∧
    handle_server_request permMsg ≠
      .ok { id := 7, result := .permissionSelected "r" } := by
  refine ⟨rfl, rfl, ?_⟩
  intro h
  rw [show handle_server_request permMsg =
    Except.ok { id := 7, result := RespResult.permissionSelected "a" }
    from rfl] at h
  simp at h

/-- Claim C5 (amended): every server-initiated request is auto-answered
with a response carrying the id of the request: a requestPermission
request by selecting the optionId of the first option whose kind is
allow_once — falling back, when no option has that kind, to the optionId
of the first option of the list (defaulting to the empty string), an
empty options list without an allow_once option raising IndexError
instead — and any other server request with an empty result object. -/
theorem handle_server_request_amended :
    ∀ (msg : JsonMsg) (rid : Int) (m : String),
      msg.id = some rid → msg.method = some m →
      (∀ r, handle_server_request msg = .ok r → r.id = rid) ∧
      (m ≠ "requestPermission" →
        handle_server_request msg = .ok { id := rid, result := .emptyObj }) ∧
      (m = "requestPermission" →
        (∀ ao, msg.options.find? (fun o => o.kind == some "allow_once") =
            some ao →
          handle_server_request msg =
            (match ao.optionId with
             | some oid => .ok { id := rid, result := .permissionSelected oid }
             | none => .error PyErr.keyError)) ∧
        (msg.options.find? (fun o => o.kind == some "allow_once") = none →
          handle_server_request msg =
            (match msg.options with
             | [] => .error PyErr.indexError
             | o :: _ =>
               .ok { id := rid,
                     result := .permissionSelected (o.optionId.getD "") }))) := by
  intro msg rid m hid hm
  have hbody : handle_server_request msg =
      (if m = "requestPermission" then
        match msg.options.find? (fun o => o.kind == some "allow_once") with
        | some ao =>
          match ao.optionId with
          | some oid => .ok ⟨rid, .permissionSelected oid⟩
          | none => .error .keyError
        | none =>
          match msg.options with
          | [] => .error .indexError
          | o :: _ => .ok ⟨rid, .permissionSelected (o.optionId.getD "")⟩
      else
        .ok ⟨rid, .emptyObj⟩) := by
    unfold handle_server_request
    rw [hm, hid]
  refine ⟨?_, ?_, ?_⟩
  · intro r hr
    rw [hbody] at hr
    split at hr
    · split at hr <;> split at hr <;> (cases hr <;> rfl)
    · cases hr
      rfl
  · intro hperm
    rw [hbody, if_neg hperm]
  · intro hperm
    constructor
    · intro ao hfind
      rw [hbody, if_pos hperm, hfind]
    · intro hfind
      rw [hbody, if_pos hperm, hfind]

/-- Witness for the amended claim C5: the allow_once option is selected
for the concrete permission request, and the unknown-method request gets
the empty result, both with the id of the request. -/
theorem handle_server_request_amended_witness :
    handle_server_request permMsg =
      .ok { id := 7, result := .permissionSelected "a" } ∧
    handle_server_request pingMsg = .ok { id := 9, result := .emptyObj } := by
  have h1 := (handle_server_request_amended permMsg 7 "requestPermission"
    rfl rfl).2.2 rfl
  have h2 := (handle_server_request_amended pingMsg 9 "ping" rfl rfl).2.1
    (by decide)
  refine ⟨?_, h2⟩
  have h3 := h1.1 { kind := some "allow_once", optionId := some "a" } rfl
  simpa using h3

/-- Claim C7: send_request registers a waiter under the next request id
and blocks on it; when the matching response (same id, no method field)
is dispatched during the wait, that response object is returned and its
id is deleted from both the pending map and the results map; when
nothing matching arrives within the timeout, a TimeoutError is raised,
and such an exception is caught only by the top-level except-Exception
handler of main, whose finally block force-terminates the subprocess
(exit code 0). -/
theorem send_request_spec : ∀ (st : ConnState) (method : String),
    (∀ m : JsonMsg, m.id = some (st.request_id + 1) → m.method = none →
      (send_request st method (some m)).1 = .ok m ∧
      (send_request st method (some m)).2.pending (st.request_id + 1) = none ∧
      (send_request st method (some m)).2.results (st.request_id + 1) = none) ∧
    (send_request st method none).1 = .error (.timeoutError method) ∧
    mainModel true (.exn (.timeoutError method)) = (0, true) := by
  intro st method
  refine ⟨?_, ?_, rfl⟩
  · intro m h1 h2
    have hd : ∀ st1 : ConnState, dispatch st1 m = .ok { st1 with
        results := fun k =>
          if k = st.request_id + 1 then some m else st1.results k
        pending := fun k =>
          if k = st.request_id + 1 then (st1.pending k).map (fun _ => true)
          else st1.pending k } := by
      intro st1
      unfold dispatch
      rw [h1, h2]
    unfold send_request
    simp [hd]
  · unfold send_request
    simp

/-- Witness for claim C7: the first request on a fresh connection is
answered by the matching arrival; the bare-connection wait times out; a
TimeoutError leads to exit code 0 with the subprocess terminated. -/
theorem send_request_spec_witness :
    (send_request freshConn "session/prompt" (some arrivalMsg)).1 =
      .ok arrivalMsg ∧
    (send_request freshConn "session/prompt" (some arrivalMsg)).2.pending 1 =
      none ∧
    (send_request freshConn "session/prompt" (some arrivalMsg)).2.results 1 =
      none ∧
    (send_request freshConn "session/prompt" none).1 =
      .error (.timeoutError "session/prompt") ∧
    mainModel true (.exn (.timeoutError "session/prompt")) = (0, true) := by
  have h := send_request_spec freshConn "session/prompt"
  have h1 := h.1 arrivalMsg rfl rfl
  exact ⟨h1.1, h1.2.1, h1.2.2, h.2.1, h.2.2⟩

/-- Claim C8: an error field in the initialize response makes run_tests
exit with code 1 after printing the error; with initialize clean, an
error field in the session/new response does the same; with both clean,
an error field in the session/set_mode response only prints a warning
and leaves the outcome of the run unchanged; a sys.exit(1) passes
through main with exit code 1; and a missing dist artifact makes main
exit with code 1 before spawning anything. -/
theorem setup_error_exits : ∀ (i : RunInputs) (e : String) (rt : RunOutcome),
    (i.initResp.errorField = some e →
      run_tests i = (.sysExit 1, ["ERROR: " ++ e])) ∧
    (i.initResp.errorField = none → i.sessionResp.errorField = some e →
      run_tests i = (.sysExit 1, ["ERROR: " ++ e])) ∧
    (i.initResp.errorField = none → i.sessionResp.errorField = none →
      i.modeResp.errorField = some e →
      (run_tests i).2 = ["WARNING: set_mode failed: " ++ e] ∧
      (run_tests i).1 =
        (run_tests
          { i with modeResp := { i.modeResp with errorField := none } }).1) ∧
    mainModel true (.sysExit 1) = (1, true) ∧
    mainModel false rt = (1, false) := by
  intro i e rt
  refine ⟨?_, ?_, ?_, rfl, rfl⟩
  · intro h1
    unfold run_tests
    rw [h1]
  · intro h1 h2
    unfold run_tests
    rw [h1, h2]
  · intro h1 h2 h3
    unfold run_tests
    dsimp only
    rw [h1, h2, h3]
    rcases h4 : test1Asserts i.t1 with m | u <;> simp [h4]

/-- Witness for claim C8 at concrete inputs. -/
theorem setup_error_exits_witness :
    run_tests errInitInputs = (.sysExit 1, ["ERROR: boom"]) ∧
    run_tests errSessionInputs = (.sysExit 1, ["ERROR: boom"]) ∧
    (run_tests errModeInputs).2 = ["WARNING: set_mode failed: boom"] ∧
    mainModel true (.sysExit 1) = (1, true) := by
  have h1 := (setup_error_exits errInitInputs "boom" .normal).1 rfl
  have h2 := (setup_error_exits errSessionInputs "boom" .normal).2.1 rfl rfl
  have h3 := (setup_error_exits errModeInputs "boom" .normal).2.2.1 rfl rfl rfl
  exact ⟨h1, h2, h3.1, (setup_error_exits errInitInputs "boom" .normal).2.2.2.1⟩

/-- Claim C9: the environment passed to the subprocess is the parent
environment with exactly the CLAUDECODE variable removed: CLAUDECODE
maps to nothing, every other variable keeps its original value, and
when CLAUDECODE is absent from the parent environment the result is
identical to it. -/
theorem spawnEnv_spec : ∀ environ : String → Option String,
    spawnEnv environ "CLAUDECODE" = none ∧
    (∀ k, k ≠ "CLAUDECODE" → spawnEnv environ k = environ k) ∧
    (environ "CLAUDECODE" = none → spawnEnv environ = environ) := by
  intro environ
  refine ⟨by simp [spawnEnv], ?_, ?_⟩
  · intro k hk
    simp [spawnEnv, hk]
  · intro h
    funext k
    by_cases hk : k = "CLAUDECODE"
    · subst hk
      simp [spawnEnv, h]
    · simp [spawnEnv, hk]

/-- Witness for claim C9 on a concrete parent environment without
CLAUDECODE. -/
theorem spawnEnv_spec_witness :
    spawnEnv sampleEnviron "PATH" = some "/usr/bin" ∧
    spawnEnv sampleEnviron = sampleEnviron := by
  have h := spawnEnv_spec sampleEnviron
  refine ⟨?_, h.2.2 (by simp [sampleEnviron])⟩
  rw [h.2.1 "PATH" (by simp)]
  simp [sampleEnviron]

/-- Claim C10 (counterexample): the claim states that the reader loop
is total over arbitrary byte input, that a line that fails to decode as
JSON is silently skipped without raising, and that processing continues
with the subsequent lines.  On the stream whose first line is the
single invalid UTF-8 byte 255, json.loads raises UnicodeDecodeError,
which the except json.JSONDecodeError clause does not catch: the reader
thread dies, and the following line 65 — which decodes on its own, as
the last conjunct shows — is never processed and nothing is
dispatched. -/
theorem read_loop_unicode_counterexample :
    read_loop sampleDecode [] crashStream = ([], .uncaught) ∧
    (read_loop sampleDecode [] crashStream).1 ≠ [decodedMsg] ∧
    read_loop sampleDecode [] [65, 10] = ([decodedMsg], .eof) := by
  decide

/-- Claim C10 (amended): the reader loop silently skips, continuing
with the subsequent lines, exactly the lines that are empty after
stripping or on which json.loads raises json.JSONDecodeError, and it
dispatches each decoded object in order; but a line on which json.loads
raises UnicodeDecodeError (invalid UTF-8 bytes) kills the reader
thread: the loop stops after dispatching only the objects decoded
before that line, and the subsequent lines are never processed.  At end
of input the unfinished trailing buffer is discarded.  The dispatched
messages of the byte-at-a-time loop are exactly the per-line emissions
over the complete lines of the stream. -/
theorem read_loop_spec_amended :
    ∀ (decode : List ℕ → DecodeResult) (input : List ℕ),
      read_loop decode [] input = emitLines decode (splitStream input).1 ∧
      (∀ l ls, stripBytes (l ++ [10]) = [] →
        emitLines decode (l :: ls) = emitLines decode ls) ∧
      (∀ l ls, decode (stripBytes (l ++ [10])) = .jsonError →
        emitLines decode (l :: ls) = emitLines decode ls) ∧
      (∀ l ls msg, stripBytes (l ++ [10]) ≠ [] →
        decode (stripBytes (l ++ [10])) = .ok msg →
        emitLines decode (l :: ls) =
          (msg :: (emitLines decode ls).1, (emitLines decode ls).2)) ∧
      (∀ l ls, stripBytes (l ++ [10]) ≠ [] →
        decode (stripBytes (l ++ [10])) = .unicodeError →
        emitLines decode (l :: ls) = ([], .uncaught)) := by
  intro decode input
  refine ⟨?_, ?_, ?_, ?_, ?_⟩
  · rw [read_loop_eq decode input [], consFirst_nil]
  · intro l ls h
    simp [emitLines, h]
  · intro l ls h
    simp [emitLines, h]
  · intro l ls msg h1 h2
    simp [emitLines, h1, h2]
  · intro l ls h1 h2
    simp [emitLines, h1, h2]

/-- Witness for the amended claim C10 on the mixed stream: the
decodable line before the invalid UTF-8 line is dispatched, the empty,
blank and json.JSONDecodeError lines are skipped with processing
continuing, and the UnicodeDecodeError line kills the loop so that the
decodable line after it is never processed. -/
theorem read_loop_spec_amended_witness :
    read_loop sampleDecode [] mixedStream = ([decodedMsg], .uncaught) ∧
    emitLines sampleDecode ([32] :: [[65]]) = emitLines sampleDecode [[65]] ∧
    emitLines sampleDecode ([66] :: [[65]]) = emitLines sampleDecode [[65]] ∧
    emitLines sampleDecode ([65] :: [[255]]) =
      (decodedMsg :: (emitLines sampleDecode [[255]]).1,
        (emitLines sampleDecode [[255]]).2) ∧
    emitLines sampleDecode ([255] :: [[65]]) = ([], .uncaught) := by
  have h := read_loop_spec_amended sampleDecode mixedStream
  exact ⟨h.1.trans (by decide), h.2.1 [32] [[65]] (by decide),
    h.2.2.1 [66] [[65]] (by decide),
    h.2.2.2.1 [65] [[255]] decodedMsg (by decide) (by decide),
    h.2.2.2.2 [255] [[65]] (by decide) (by decide)⟩
